import Mathlib

/-
Verification of js-caching (src/cache.js) against its specification.

The module is a client-side key/value cache facade over three backends:
the in-memory array `_storage` (storage type "js"), `sessionStorage`, and
`localStorage`.  This file gives a shallow embedding of the module state
and of its operations (`_init`, `_initStorage`, `_checkExpiration`, `x.set`,
`x.get`, `x.reset`), translated directly from src/cache.js, and proves the
testable properties of the spec about them.

Modelling conventions:
  - JS values that the cache can store are the inductive `JSValue`
    (string, number, boolean, object, array, null) — the "supported"
    value types of the spec.  JS numbers are modelled as integers;
    every numeric quantity the cache manipulates (Date.getTime()
    milliseconds, the 900-second timeout) is integral.  The one JS
    float division, `(_currentTime - _expirationTime) / 1000` in
    `_checkExpiration`, is modelled as exact division in ℚ.
  - `JSON.stringify` / `JSON.parse` are external collaborators that
    round-trip the `{type, value}` wrapper for the supported value
    types, and `JSON.stringify` of an object literal is always a
    nonempty string (it starts with a brace), hence always truthy in
    the `if (data)` test inside `x.get`.  The stores therefore hold the
    parsed wrapper (`CacheEntry`) directly: `none` models an absent key
    (getItem returning null / `_storage[key]` being undefined, both
    falsy), `some entry` models the serialized wrapper (truthy).
  - `localStorage.setItem` / `sessionStorage.setItem` can throw.  Which
    attempt throws, and with what DOMException `code`, is an input: an
    oracle `Env : Nat → WriteOutcome` gives the outcome of the n-th
    platform write attempt, and an attempt counter is threaded through.
    An uncaught exception is an `Except.error code`.
-/

/-- The storage type enumeration of `_storageType`: "js" (in-memory),
"sessionStorage", "localStorage". -/
inductive StorageType where
  | localStorage
  | sessionStorage
  | js
  deriving DecidableEq, Repr

/-- A JavaScript value of one of the supported types of the cache: string,
number, boolean, structured object, array, or null. -/
inductive JSValue where
  | str : String → JSValue
  | num : Int → JSValue
  | bool : Bool → JSValue
  | obj : List (String × JSValue) → JSValue
  | arr : List JSValue → JSValue
  | null : JSValue

/-- JS `typeof`, as used by `x.set` to build the type tag of the wrapper. -/
def JSValue.typeOf : JSValue → String
  | .str _ => "string"
  | .num _ => "number"
  | .bool _ => "boolean"
  | .obj _ => "object"
  | .arr _ => "object"
  | .null => "object"

/-- JS truthiness of a value, as used by `if(!_expirationTime)` in
`_checkExpiration`: false, 0, the empty string and null are falsy;
objects and arrays are always truthy. -/
def JSValue.truthy : JSValue → Bool
  | .str s => s ≠ ""
  | .num n => n ≠ 0
  | .bool b => b
  | .obj _ => true
  | .arr _ => true
  | .null => false

/-- JS ToNumber coercion as applied by the subtraction
`_currentTime - _expirationTime`, partially modelled: numbers, booleans
and null convert exactly; string and object conversion (platform number
parsing / valueOf) is modelled as NaN (`none`) — sound here because the
cache itself only ever stores a number under the `_cacheTimeout` key,
and any comparison against NaN is false in JS. -/
def JSValue.toNumber : JSValue → Option ℚ
  | .num n => some (n : ℚ)
  | .bool b => some (if b then 1 else 0)
  | .null => some 0
  | _ => none

/-- The serialized `{type, value}` wrapper built by `x.set` (held in
parsed form; see the serialization convention above). -/
structure CacheEntry where
  type : String
  value : JSValue

/-- A key/value store: the contents of localStorage, of sessionStorage,
or of the in-memory `_storage` array.  `none` is an absent key. -/
def Store : Type := String → Option CacheEntry

/-- The empty store (a cleared storage area / a fresh `_storage = []`). -/
def Store.empty : Store := fun _ => none

/-- Reading a key (getItem / `_storage[key]`). -/
def Store.read (st : Store) (k : String) : Option CacheEntry := st k

/-- Writing a key (setItem / `_storage[key] = json`). -/
def Store.write (st : Store) (k : String) (e : CacheEntry) : Store :=
  fun k2 => if k2 = k then some e else st k2

/-- The mutable state of the cache module: the `_storageType` selection
and the contents of the three storage areas. -/
structure CacheState where
  storageType : StorageType
  jsStorage : Store
  localStore : Store
  sessionStore : Store

/-- The storage area the current `_storageType` dispatches to. -/
def activeStore (st : CacheState) : Store :=
  match st.storageType with
  | .localStorage => st.localStore
  | .sessionStorage => st.sessionStore
  | .js => st.jsStorage

/-- Outcome of one platform `setItem` attempt: success, or a thrown
exception carrying a DOMException `code`. -/
inductive WriteOutcome where
  | ok
  | throw : Int → WriteOutcome

/-- Oracle giving the outcome of the n-th platform write attempt. -/
def Env : Type := Nat → WriteOutcome

/-- The oracle under which every platform write succeeds. -/
def envOk : Env := fun _ => .ok

/-- The constant `_QUOTA_EXCEEDED = 22`. -/
def QUOTA_EXCEEDED : Int := 22

/-- Translation of `x.reset`: clears the active storage area and
returns true.  The other storage areas are untouched. -/
def cacheReset (st : CacheState) : CacheState × Bool :=
  match st.storageType with
  | .localStorage => ({ st with localStore := Store.empty }, true)
  | .sessionStorage => ({ st with sessionStore := Store.empty }, true)
  | .js => ({ st with jsStorage := Store.empty }, true)

/-- Translation of `x.get`: reads the raw data for the key from the
active storage area; if it is absent (falsy), returns the boolean-false
sentinel, otherwise parses the wrapper and returns its inner value.
The unreachable source branch for default coincides with the "js"
branch and is absorbed by the exhaustive match. -/
def cacheGet (st : CacheState) (key : String) : JSValue :=
  let data : Option CacheEntry :=
    match st.storageType with
    | .localStorage => st.localStore.read key
    | .sessionStorage => st.sessionStore.read key
    | .js => st.jsStorage.read key
  match data with
  | some json => json.value
  | none => .bool false

/-- Translation of `x.set`: wraps the value as `{type: typeof value,
value: value}`, serializes it, and writes it to the active storage area.
For localStorage/sessionStorage the write attempt consumes one oracle
step; a thrown exception is caught, and only when its code is
`_QUOTA_EXCEEDED` does the handler run `cache.reset()` and retry the
write once — that retry is not guarded, so its exception (any code)
propagates.  An exception with any other code falls through the
`switch(e.code)` with no matching case: it is swallowed and `set`
returns normally with the store unchanged.  The in-memory branch cannot
throw and consumes no oracle step. -/
def cacheSet (env : Env) (n : Nat) (st : CacheState) (key : String) (value : JSValue) :
    Except Int (CacheState × Nat) :=
  let data : CacheEntry := ⟨value.typeOf, value⟩
  match st.storageType with
  | .localStorage =>
    match env n with
    | .ok => .ok ({ st with localStore := st.localStore.write key data }, n + 1)
    | .throw c =>
      if c = QUOTA_EXCEEDED then
        let st1 := (cacheReset st).1
        match env (n + 1) with
        | .ok => .ok ({ st1 with localStore := st1.localStore.write key data }, n + 2)
        | .throw c2 => .error c2
      else
        .ok (st, n + 1)
  | .sessionStorage =>
    match env n with
    | .ok => .ok ({ st with sessionStore := st.sessionStore.write key data }, n + 1)
    | .throw c =>
      if c = QUOTA_EXCEEDED then
        let st1 := (cacheReset st).1
        match env (n + 1) with
        | .ok => .ok ({ st1 with sessionStore := st1.sessionStore.write key data }, n + 2)
        | .throw c2 => .error c2
      else
        .ok (st, n + 1)
  | .js => .ok ({ st with jsStorage := st.jsStorage.write key data }, n)

/-- Models the platform rendering of `new Date(ms)` to text, as
serialized under `_cacheTimeoutString` (the source stores the Date
object, whose JSON serialization is its platform-defined string form
with typeof tag "object"; the tag is metadata the cache never reads,
so the materialized string is stored here with its own tag). -/
def dateString (ms : Int) : String := "Date(" ++ toString ms ++ ")"

/-- The pair of writes the expiration check performs when no horizon is
stored yet: the numeric horizon `e` under _cacheTimeout, then its
rendered Date under _cacheTimeoutString. -/
def horizonWrites (base : Store) (e : Int) : Store :=
  Store.write (Store.write base "_cacheTimeout" ⟨"number", .num e⟩)
    "_cacheTimeoutString" ⟨"string", .str (dateString e)⟩

/-- The state produced by an initialization that selects localStorage
and records the horizon `e`: both horizon keys written. -/
def withHorizon (st : CacheState) (e : Int) : CacheState :=
  { st with storageType := .localStorage, localStore := horizonWrites st.localStore e }

/-- Translation of `_checkExpiration`, with the current time
`d.getTime()` as the parameter `now` (milliseconds) and the module
variable `_cacheTimeout` (900, seconds) as the parameter `cacheTimeout`.
Reads the stored expiration time via x.get applied to the _cacheTimeout key; if it is
falsy, sets `_expirationTime = now + cacheTimeout` and stores it and its
string form via `x.set`.  Then computes
`timeElapsed = (now - _expirationTime) / 1000` (exact division in ℚ;
a NaN-producing coercion makes the comparison false) and runs
`x.reset()` when `timeElapsed > cacheTimeout`. -/
def checkExpiration (cacheTimeout now : Int) (env : Env) (n : Nat) (st : CacheState) :
    Except Int (CacheState × Nat) :=
  let expirationTime0 := cacheGet st "_cacheTimeout"
  let afterSet : Except Int (JSValue × CacheState × Nat) :=
    if expirationTime0.truthy then .ok (expirationTime0, st, n)
    else
      let e : Int := now + cacheTimeout
      match cacheSet env n st "_cacheTimeout" (.num e) with
      | .error c => .error c
      | .ok (st1, n1) =>
        match cacheSet env n1 st1 "_cacheTimeoutString" (.str (dateString e)) with
        | .error c => .error c
        | .ok (st2, n2) => .ok (.num e, st2, n2)
  match afterSet with
  | .error c => .error c
  | .ok (expv, st2, n2) =>
    match expv.toNumber with
    | some e =>
      if ((now : ℚ) - e) / 1000 > (cacheTimeout : ℚ) then .ok ((cacheReset st2).1, n2)
      else .ok (st2, n2)
    | none => .ok (st2, n2)

/-- Translation of `_init` followed by `_initStorage`: `_storageType`
is assigned "localStorage" and downgraded to "js" when
`window.localStorage` is unavailable (the sessionStorage case of the
switch in the source is unreachable, since the type was just assigned
"localStorage").  Then `_initStorage` runs the expiration check for the
localStorage/sessionStorage types and allocates a fresh `_storage = []`
for "js" (the unreachable `default:` branch does the same). -/
def cacheInit (localStorageAvailable : Bool) (cacheTimeout now : Int)
    (env : Env) (n : Nat) (st : CacheState) : Except Int (CacheState × Nat) :=
  let stype : StorageType := if localStorageAvailable then .localStorage else .js
  let st1 : CacheState := { st with storageType := stype }
  match stype with
  | .localStorage => checkExpiration cacheTimeout now env n st1
  | .sessionStorage => checkExpiration cacheTimeout now env n st1
  | .js => .ok ({ st1 with jsStorage := Store.empty }, n)

/-- One public operation of the facade. -/
inductive CacheOp where
  | set : String → JSValue → CacheOp
  | get : String → CacheOp
  | reset : CacheOp

/-- Runs one public operation (a `get` is pure and leaves the state
unchanged; its return value is not recorded here). -/
def runOp (env : Env) (n : Nat) (st : CacheState) : CacheOp → Except Int (CacheState × Nat)
  | .set k v => cacheSet env n st k v
  | .get _ => .ok (st, n)
  | .reset => .ok ((cacheReset st).1, n)

/-- Runs a sequence of public operations, threading state and the
write-attempt counter; stops at the first uncaught exception. -/
def runOps (env : Env) : List CacheOp → Nat → CacheState → Except Int (CacheState × Nat)
  | [], n, st => .ok (st, n)
  | op :: ops, n, st =>
    match runOp env n st op with
    | .error c => .error c
    | .ok (st1, n1) => runOps env ops n1 st1

/-- A concrete state on the in-memory backend. -/
def demoJS : CacheState :=
  { storageType := .js, jsStorage := Store.empty,
    localStore := Store.empty, sessionStore := Store.empty }

/-- A concrete state on the localStorage backend. -/
def demoLS : CacheState :=
  { storageType := .localStorage, jsStorage := Store.empty,
    localStore := Store.empty, sessionStore := Store.empty }

/-- A concrete state on the sessionStorage backend. -/
def demoSS : CacheState :=
  { storageType := .sessionStorage, jsStorage := Store.empty,
    localStore := Store.empty, sessionStore := Store.empty }

/-- A concrete localStorage-backed state already holding an expiration
horizon of 1000 ms under the _cacheTimeout key. -/
def demoExpired : CacheState :=
  { demoLS with
    localStore := Store.write Store.empty "_cacheTimeout" ⟨"number", .num 1000⟩ }

/-- Oracle for the quota scenario: the first platform write attempt
throws the quota-exceeded exception (code 22), every later one succeeds. -/
def envQuota : Env := fun m => if m = 0 then .throw 22 else .ok

/-- Oracle under which every platform write attempt throws an exception
whose code is 5 (a non-quota DOMException). -/
def envThrow5 : Env := fun _ => .throw 5

-- Basic sanity checks of the embedding on concrete inputs.
example : cacheGet demoJS "k" = .bool false := rfl
example : cacheSet envOk 0 demoJS "k" (.str "v") =
    .ok ({ demoJS with jsStorage := Store.write Store.empty "k" ⟨"string", .str "v"⟩ }, 0) := rfl
example : (cacheReset demoLS).2 = true := rfl

-- !----- Helper lemmas (shared; not tied to a single claim)

/-- Reading any key of the active store after a reset yields nothing. -/
theorem cacheReset_clears (st : CacheState) (k : String) :
    (activeStore (cacheReset st).1).read k = none := by
  cases hty : st.storageType <;>
    simp [cacheReset, activeStore, hty, Store.read, Store.empty]

/-- The reset operation always returns the success indicator true. -/
theorem cacheReset_true (st : CacheState) : (cacheReset st).2 = true := by
  cases hty : st.storageType <;> simp [cacheReset, hty]

/-- Reset does not change the selected storage type. -/
theorem cacheReset_storageType (st : CacheState) :
    ((cacheReset st).1).storageType = st.storageType := by
  cases hty : st.storageType <;> simp [cacheReset, hty]

/-- Getting a key that is absent from the active store returns the
boolean-false sentinel. -/
theorem cacheGet_absent (st : CacheState) (k : String)
    (h : (activeStore st).read k = none) : cacheGet st k = .bool false := by
  cases hty : st.storageType <;>
    simp [activeStore, hty] at h <;> simp [cacheGet, hty, h]

/-- On the in-memory backend, a set never throws, consumes no platform
write attempt, and only updates the in-memory mapping. -/
theorem cacheSet_js (env : Env) (n : Nat) (st : CacheState) (k : String) (v : JSValue)
    (h : st.storageType = .js) :
    cacheSet env n st k v =
      .ok ({ st with jsStorage := st.jsStorage.write k ⟨v.typeOf, v⟩ }, n) := by
  simp [cacheSet, h]

/-- After a set that succeeds on the first platform write attempt, the
written value reads back under the same key. -/
theorem set_then_get (env : Env) (n : Nat) (st : CacheState) (k : String) (v : JSValue)
    (hok : env n = .ok) :
    ∃ st2 n2, cacheSet env n st k v = .ok (st2, n2) ∧ cacheGet st2 k = v := by
  cases hty : st.storageType
  case localStorage =>
    refine ⟨{ st with localStore := st.localStore.write k ⟨v.typeOf, v⟩ }, n + 1, ?_, ?_⟩
    · simp [cacheSet, hty, hok]
    · simp [cacheGet, hty, Store.read, Store.write]
  case sessionStorage =>
    refine ⟨{ st with sessionStore := st.sessionStore.write k ⟨v.typeOf, v⟩ }, n + 1, ?_, ?_⟩
    · simp [cacheSet, hty, hok]
    · simp [cacheGet, hty, Store.read, Store.write]
  case js =>
    refine ⟨{ st with jsStorage := st.jsStorage.write k ⟨v.typeOf, v⟩ }, n, ?_, ?_⟩
    · exact cacheSet_js env n st k v hty
    · simp [cacheGet, hty, Store.read, Store.write]

-- !----- Claim theorems

/-- Claim C1: for every key k and every supported value v (string,
number, boolean, or structured object), set(k, v) followed by get(k) on
the same active backend (whichever of the three is active) returns a
value deeply equal to v, provided the platform write succeeds. -/
theorem set_get_roundtrip (env : Env) (n : Nat) (st : CacheState) (k : String) (v : JSValue)
    (hok : env n = .ok) :
    ∃ st2 n2, cacheSet env n st k v = .ok (st2, n2) ∧ cacheGet st2 k = v :=
  set_then_get env n st k v hok

/-- Witness for C1 at a concrete input: a string value round-trips on
the localStorage backend. -/
theorem set_get_roundtrip_witness :
    ∃ st2 n2, cacheSet envOk 0 demoLS "a" (.str "x") = .ok (st2, n2) ∧
      cacheGet st2 "a" = .str "x" :=
  set_get_roundtrip envOk 0 demoLS "a" (.str "x") rfl

/-- Claim C6: get(k) for a key absent from the active store (never
written) returns the boolean-false sentinel, and get(k) after a reset()
returns the boolean-false sentinel for every key. -/
theorem get_absent_sentinel (st : CacheState) (k : String) :
    ((activeStore st).read k = none → cacheGet st k = .bool false) ∧
      cacheGet (cacheReset st).1 k = .bool false := by
  refine ⟨cacheGet_absent st k, ?_⟩
  exact cacheGet_absent (cacheReset st).1 k (cacheReset_clears st k)

/-- Witness for C6 at a concrete input: a never-written key of a fresh
in-memory cache, and any key after reset, both read as false. -/
theorem get_absent_sentinel_witness :
    cacheGet demoJS "k" = .bool false ∧ cacheGet (cacheReset demoJS).1 "k" = .bool false :=
  ⟨(get_absent_sentinel demoJS "k").1 rfl, (get_absent_sentinel demoJS "k").2⟩

/-- Claim C7: calling reset() twice in a row leaves the active store
empty after each call, and each call returns the success indicator true
(reset has no failure mode). -/
theorem reset_idempotent (st : CacheState) :
    ((cacheReset st).2 = true ∧ ∀ k, (activeStore (cacheReset st).1).read k = none) ∧
      ((cacheReset (cacheReset st).1).2 = true ∧
        ∀ k, (activeStore (cacheReset (cacheReset st).1).1).read k = none) :=
  ⟨⟨cacheReset_true st, cacheReset_clears st⟩,
    ⟨cacheReset_true (cacheReset st).1, cacheReset_clears (cacheReset st).1⟩⟩

/-- Claim C10: set(k, false) followed by get(k) returns boolean false,
which is exactly the sentinel get returns for a key that was never
written — a stored boolean false is indistinguishable from absence
through the public get interface. -/
theorem stored_false_indistinguishable (env : Env) (n : Nat) (st st3 : CacheState)
    (k k3 : String) (hok : env n = .ok)
    (habs : (activeStore st3).read k3 = none) :
    ∃ st2 n2, cacheSet env n st k (.bool false) = .ok (st2, n2) ∧
      cacheGet st2 k = .bool false ∧ cacheGet st3 k3 = cacheGet st2 k := by
  obtain ⟨st2, n2, h1, h2⟩ := set_then_get env n st k (.bool false) hok
  exact ⟨st2, n2, h1, h2, by rw [cacheGet_absent st3 k3 habs, h2]⟩

/-- Witness for C10 at a concrete input: false stored on the in-memory
backend reads back as the same false that an untouched cache returns. -/
theorem stored_false_indistinguishable_witness :
    ∃ st2 n2, cacheSet envOk 0 demoJS "k" (.bool false) = .ok (st2, n2) ∧
      cacheGet st2 "k" = .bool false ∧ cacheGet demoLS "other" = cacheGet st2 "k" :=
  stored_false_indistinguishable envOk 0 demoJS demoLS "k" "other" rfl rfl

/-- Claim C4: when a set on a session/durable backend hits a
quota-exceeded exception (code 22), the whole cache is wiped via
reset() and the write is retried exactly once — so when the retry
succeeds, after set returns the active store has been cleared and the
value is present under the key (and nothing else is); when the single
retry also throws, that exception propagates to the caller. -/
theorem quota_reset_retry (env : Env) (n : Nat) (st : CacheState) (k : String) (v : JSValue)
    (hback : st.storageType = .localStorage ∨ st.storageType = .sessionStorage)
    (hq : env n = .throw 22) :
    (env (n + 1) = .ok →
      ∃ st2, cacheSet env n st k v = .ok (st2, n + 2) ∧ cacheGet st2 k = v ∧
        ∀ k2, k2 ≠ k → (activeStore st2).read k2 = none) ∧
    (∀ c, env (n + 1) = .throw c → cacheSet env n st k v = .error c) := by
  rcases hback with hty | hty
  · constructor
    · intro hok
      refine ⟨{ st with localStore := Store.write Store.empty k ⟨v.typeOf, v⟩ }, ?_, ?_, ?_⟩
      · simp [cacheSet, hty, hq, hok, cacheReset, QUOTA_EXCEEDED]
      · simp [cacheGet, hty, Store.read, Store.write]
      · intro k2 hk2
        simp [activeStore, hty, Store.read, Store.write, Store.empty, hk2]
    · intro c hc
      simp [cacheSet, hty, hq, hc, QUOTA_EXCEEDED]
  · constructor
    · intro hok
      refine ⟨{ st with sessionStore := Store.write Store.empty k ⟨v.typeOf, v⟩ }, ?_, ?_, ?_⟩
      · simp [cacheSet, hty, hq, hok, cacheReset, QUOTA_EXCEEDED]
      · simp [cacheGet, hty, Store.read, Store.write]
      · intro k2 hk2
        simp [activeStore, hty, Store.read, Store.write, Store.empty, hk2]
    · intro c hc
      simp [cacheSet, hty, hq, hc, QUOTA_EXCEEDED]

/-- Witness for C4 at a concrete input: on localStorage, a first write
that throws code 22 is recovered by wiping and retrying; the value is
then present and the store holds nothing else. -/
theorem quota_reset_retry_witness :
    ∃ st2, cacheSet envQuota 0 demoLS "a" (.str "x") = .ok (st2, 2) ∧
      cacheGet st2 "a" = .str "x" ∧
      ∀ k2, k2 ≠ "a" → (activeStore st2).read k2 = none :=
  (quota_reset_retry envQuota 0 demoLS "a" (.str "x") (Or.inl rfl) rfl).1 rfl

/-- Counterexample to claim C5 as stated: an underlying store failure
with a non-quota code (here 5) during set does NOT propagate to the
caller — the catch block catches every exception and its switch on
e.code has no case other than 22, so set returns normally (an ok
result, not an error) and the store is unchanged. -/
theorem nonquota_swallowed_counterexample :
    cacheSet envThrow5 0 demoLS "k" (.str "x") = .ok (demoLS, 1) := by
  simp [cacheSet, envThrow5, QUOTA_EXCEEDED, demoLS]

/-- Claim C5 as amended: for every set on a session/durable backend, an
underlying store failure whose code is not the quota-exceeded code 22
is caught by set and silently swallowed — set returns normally with the
store unchanged (only a failure of the quota-triggered retry would
propagate). -/
theorem nonquota_error_swallowed (env : Env) (n : Nat) (st : CacheState) (k : String)
    (v : JSValue) (c : Int)
    (hback : st.storageType = .localStorage ∨ st.storageType = .sessionStorage)
    (hc : env n = .throw c) (hne : c ≠ 22) :
    cacheSet env n st k v = .ok (st, n + 1) := by
  rcases hback with hty | hty <;> simp [cacheSet, hty, hc, QUOTA_EXCEEDED, hne]

/-- Witness for the amended C5 at a concrete input: a code-5 exception
on the sessionStorage backend is swallowed and the state is unchanged. -/
theorem nonquota_error_swallowed_witness :
    cacheSet envThrow5 0 demoSS "k" (.str "x") = .ok (demoSS, 1) :=
  nonquota_error_swallowed envThrow5 0 demoSS "k" (.str "x") 5 (Or.inr rfl) rfl (by decide)

/-- When a truthy numeric horizon is stored under _cacheTimeout on the
localStorage backend and the elapsed-time comparison fires, the
expiration check wipes the active (local) store. -/
theorem checkExpiration_expired (cacheTimeout now e : Int) (tag : String)
    (env : Env) (n : Nat) (st : CacheState)
    (hty : st.storageType = .localStorage)
    (hstore : st.localStore.read "_cacheTimeout" = some ⟨tag, .num e⟩)
    (hnz : e ≠ 0)
    (hgt : ((now : ℚ) - (e : ℚ)) / 1000 > (cacheTimeout : ℚ)) :
    checkExpiration cacheTimeout now env n st =
      .ok ({ st with localStore := Store.empty }, n) := by
  simp [checkExpiration, cacheGet, hty, hstore, JSValue.truthy, hnz,
    JSValue.toNumber, hgt, cacheReset]

/-- When a truthy numeric horizon is stored under _cacheTimeout on the
localStorage backend and the elapsed-time comparison does not fire, the
expiration check leaves the state unchanged. -/
theorem checkExpiration_present (cacheTimeout now e : Int) (tag : String)
    (env : Env) (n : Nat) (st : CacheState)
    (hty : st.storageType = .localStorage)
    (hstore : st.localStore.read "_cacheTimeout" = some ⟨tag, .num e⟩)
    (hnz : e ≠ 0)
    (hle : ¬(((now : ℚ) - (e : ℚ)) / 1000 > (cacheTimeout : ℚ))) :
    checkExpiration cacheTimeout now env n st = .ok (st, n) := by
  simp [checkExpiration, cacheGet, hty, hstore, JSValue.truthy, hnz,
    JSValue.toNumber, hle]

/-- When no horizon is stored yet on the localStorage backend and both
platform writes succeed, the expiration check stores now + cacheTimeout
under _cacheTimeout and its rendered Date under _cacheTimeoutString,
and (for a nonnegative timeout) does not wipe. -/
theorem checkExpiration_fresh (cacheTimeout now : Int) (env : Env) (n : Nat) (st : CacheState)
    (hty : st.storageType = .localStorage)
    (hfresh : st.localStore.read "_cacheTimeout" = none)
    (hok1 : env n = .ok) (hok2 : env (n + 1) = .ok)
    (ht : 0 ≤ cacheTimeout) :
    checkExpiration cacheTimeout now env n st =
      .ok ({ st with localStore := horizonWrites st.localStore (now + cacheTimeout) }, n + 2) := by
  have ht2 : (0 : ℚ) ≤ (cacheTimeout : ℚ) := by exact_mod_cast ht
  simp [checkExpiration, cacheGet, hty, hfresh, cacheSet, hok1, hok2,
    JSValue.truthy, JSValue.toNumber, JSValue.typeOf, horizonWrites]
  intro hcon
  exfalso
  linarith

/-- Claim C2: if the stored expiration horizon (a truthy number under
_cacheTimeout) is older than the configured timeout relative to the
current time — elapsed seconds (now - horizon) / 1000 exceeding the
timeout — then the expiration check run by init() calls reset(),
leaving every key of the durable store cleared before any user data is
read. -/
theorem expired_init_wipes (cacheTimeout now e : Int) (tag : String)
    (env : Env) (n : Nat) (st : CacheState)
    (hstore : st.localStore.read "_cacheTimeout" = some ⟨tag, .num e⟩)
    (hnz : e ≠ 0)
    (helapsed : ((now : ℚ) - (e : ℚ)) / 1000 > (cacheTimeout : ℚ)) :
    ∃ st2, cacheInit true cacheTimeout now env n st = .ok (st2, n) ∧
      ∀ k, st2.localStore.read k = none := by
  refine ⟨{ st with storageType := .localStorage, localStore := Store.empty }, ?_, ?_⟩
  · have h := checkExpiration_expired cacheTimeout now e tag env n
      { st with storageType := .localStorage } rfl hstore hnz helapsed
    simpa [cacheInit] using h
  · intro k
    rfl

/-- Witness for C2 at a concrete input: a horizon of 1000 ms checked at
10000000 ms with a 900-second timeout triggers the wipe. -/
theorem expired_init_wipes_witness :
    ∃ st2, cacheInit true 900 10000000 envOk 0 demoExpired = .ok (st2, 0) ∧
      ∀ k, st2.localStore.read k = none :=
  expired_init_wipes 900 10000000 1000 "number" envOk 0 demoExpired
    (by simp [demoExpired, demoLS, Store.read, Store.write]) (by norm_num) (by norm_num)

/-- Claim C3: on the first init() against a fresh durable store, the
expiration check finds no stored horizon and creates _cacheTimeout with
value now + cacheTimeout (and its string form under
_cacheTimeoutString); on a later init() before the timeout has elapsed,
the stored timestamp is read back unchanged and not re-derived. -/
theorem expiration_horizon_establishment (cacheTimeout now now2 : Int)
    (env : Env) (st : CacheState)
    (hfresh : ∀ k, st.localStore.read k = none)
    (ht : 0 ≤ cacheTimeout) (hpos : 0 < now + cacheTimeout)
    (henv : ∀ m, env m = .ok)
    (hlater : ((now2 : ℚ) - ((now + cacheTimeout : Int) : ℚ)) / 1000 ≤ (cacheTimeout : ℚ)) :
    ∃ st1, cacheInit true cacheTimeout now env 0 st = .ok (st1, 2) ∧
      st1.localStore.read "_cacheTimeout" = some ⟨"number", .num (now + cacheTimeout)⟩ ∧
      st1.localStore.read "_cacheTimeoutString" =
        some ⟨"string", .str (dateString (now + cacheTimeout))⟩ ∧
      ∃ st2, cacheInit true cacheTimeout now2 env 2 st1 = .ok (st2, 2) ∧
        st2.localStore.read "_cacheTimeout" = some ⟨"number", .num (now + cacheTimeout)⟩ := by
  have hne : ("_cacheTimeout" : String) ≠ "_cacheTimeoutString" := by decide
  refine ⟨withHorizon st (now + cacheTimeout), ?_, ?_, ?_, ?_⟩
  · have h := checkExpiration_fresh cacheTimeout now env 0
      { st with storageType := .localStorage } rfl (hfresh "_cacheTimeout") (henv 0) (henv 1) ht
    simpa [cacheInit, withHorizon] using h
  · simp [withHorizon, horizonWrites, Store.read, Store.write, hne]
  · simp [withHorizon, horizonWrites, Store.read, Store.write]
  · refine ⟨withHorizon st (now + cacheTimeout), ?_, ?_⟩
    · have hstoreB : (withHorizon st (now + cacheTimeout)).localStore.read "_cacheTimeout" =
          some ⟨"number", .num (now + cacheTimeout)⟩ := by
        simp [withHorizon, horizonWrites, Store.read, Store.write, hne]
      have h := checkExpiration_present cacheTimeout now2 (now + cacheTimeout) "number" env 2
        (withHorizon st (now + cacheTimeout)) rfl hstoreB
        (ne_of_gt hpos) (not_lt.mpr hlater)
      simpa [cacheInit, withHorizon] using h
    · simp [withHorizon, horizonWrites, Store.read, Store.write, hne]

/-- Witness for C3 at a concrete input: a fresh localStorage cache
initialized at 1000 ms with a 900-second timeout records the horizon
1900, and a second init at 1500 ms reads it back unchanged. -/
theorem expiration_horizon_establishment_witness :
    ∃ st1, cacheInit true 900 1000 envOk 0 demoLS = .ok (st1, 2) ∧
      st1.localStore.read "_cacheTimeout" = some ⟨"number", .num (1000 + 900)⟩ ∧
      st1.localStore.read "_cacheTimeoutString" =
        some ⟨"string", .str (dateString (1000 + 900))⟩ ∧
      ∃ st2, cacheInit true 900 1500 envOk 2 st1 = .ok (st2, 2) ∧
        st2.localStore.read "_cacheTimeout" = some ⟨"number", .num (1000 + 900)⟩ :=
  expiration_horizon_establishment 900 1000 1500 envOk demoLS (fun _ => rfl)
    (by norm_num) (by norm_num) (fun _ => rfl) (by norm_num)

/-- A set that returns normally never changes the selected storage type. -/
theorem cacheSet_ok_storageType (env : Env) (n : Nat) (st : CacheState) (k : String)
    (v : JSValue) (st2 : CacheState) (n2 : Nat)
    (h : cacheSet env n st k v = .ok (st2, n2)) : st2.storageType = st.storageType := by
  cases hty : st.storageType
  case js =>
    rw [cacheSet_js env n st k v hty] at h
    simp at h
    rw [← h.1]
    exact hty
  case localStorage =>
    cases henv : env n with
    | ok =>
      simp [cacheSet, hty, henv] at h
      rw [← h.1]
    | throw c =>
      by_cases hc : c = QUOTA_EXCEEDED
      · cases henv2 : env (n + 1) with
        | ok =>
          simp [cacheSet, hty, henv, hc, henv2, cacheReset] at h
          rw [← h.1]
        | throw c2 =>
          simp [cacheSet, hty, henv, hc, henv2] at h
      · simp [cacheSet, hty, henv, hc] at h
        rw [← h.1]
        exact hty
  case sessionStorage =>
    cases henv : env n with
    | ok =>
      simp [cacheSet, hty, henv] at h
      rw [← h.1]
    | throw c =>
      by_cases hc : c = QUOTA_EXCEEDED
      · cases henv2 : env (n + 1) with
        | ok =>
          simp [cacheSet, hty, henv, hc, henv2, cacheReset] at h
          rw [← h.1]
        | throw c2 =>
          simp [cacheSet, hty, henv, hc, henv2] at h
      · simp [cacheSet, hty, henv, hc] at h
        rw [← h.1]
        exact hty

/-- A public operation that returns normally never changes the selected
storage type. -/
theorem runOp_ok_storageType (env : Env) (n : Nat) (st : CacheState) (op : CacheOp)
    (st2 : CacheState) (n2 : Nat)
    (h : runOp env n st op = .ok (st2, n2)) : st2.storageType = st.storageType := by
  cases op with
  | set k v => exact cacheSet_ok_storageType env n st k v st2 n2 h
  | get k =>
    simp [runOp] at h
    rw [← h.1]
  | reset =>
    simp [runOp] at h
    rw [← h.1, cacheReset_storageType]

/-- A sequence of public operations that runs to completion never
changes the selected storage type. -/
theorem runOps_ok_storageType (env : Env) (ops : List CacheOp) :
    ∀ (n : Nat) (st st2 : CacheState) (n2 : Nat),
      runOps env ops n st = .ok (st2, n2) → st2.storageType = st.storageType := by
  induction ops with
  | nil =>
    intro n st st2 n2 h
    simp [runOps] at h
    rw [← h.1]
  | cons op ops ih =>
    intro n st st2 n2 h
    cases hop : runOp env n st op with
    | error c =>
      simp [runOps, hop] at h
    | ok p =>
      obtain ⟨st1, n1⟩ := p
      simp only [runOps, hop] at h
      exact (ih n1 st1 st2 n2 h).trans (runOp_ok_storageType env n st op st1 n1 hop)

/-- On the in-memory backend, every sequence of public operations
succeeds, performs no platform write attempt (the attempt counter is
unchanged), and leaves both platform stores untouched. -/
theorem runOps_js (env : Env) (ops : List CacheOp) :
    ∀ (n : Nat) (st : CacheState), st.storageType = .js →
      ∃ st2, runOps env ops n st = .ok (st2, n) ∧ st2.storageType = .js ∧
        st2.localStore = st.localStore ∧ st2.sessionStore = st.sessionStore := by
  induction ops with
  | nil =>
    intro n st h
    exact ⟨st, by simp [runOps], h, rfl, rfl⟩
  | cons op ops ih =>
    intro n st h
    cases op with
    | set k v =>
      obtain ⟨st2, h2, h3, h4, h5⟩ :=
        ih n { st with jsStorage := Store.write st.jsStorage k ⟨v.typeOf, v⟩ } h
      exact ⟨st2, by simp [runOps, runOp, cacheSet_js env n st k v h, h2], h3, h4, h5⟩
    | get k =>
      obtain ⟨st2, h2, h3, h4, h5⟩ := ih n st h
      exact ⟨st2, by simp [runOps, runOp, h2], h3, h4, h5⟩
    | reset =>
      obtain ⟨st2, h2, h3, h4, h5⟩ := ih n { st with jsStorage := Store.empty } h
      rw [h] at h2
      exact ⟨st2, by simp [runOps, runOp, cacheReset, h, h2], h3, h4, h5⟩

/-- Claim C8: when the preferred durable store is unavailable, init()
selects the in-memory backend, and every subsequent sequence of public
get/set/reset operations operates purely on the in-memory mapping: it
succeeds with the platform write-attempt counter unchanged (no call
reaches the unavailable store) and both platform stores untouched. -/
theorem fallback_in_memory (cacheTimeout now : Int) (env : Env) (n : Nat)
    (st : CacheState) (ops : List CacheOp) :
    ∃ st1, cacheInit false cacheTimeout now env n st = .ok (st1, n) ∧
      st1.storageType = .js ∧
      ∃ st2, runOps env ops n st1 = .ok (st2, n) ∧ st2.storageType = .js ∧
        st2.localStore = st.localStore ∧ st2.sessionStore = st.sessionStore := by
  refine ⟨{ st with storageType := .js, jsStorage := Store.empty }, ?_, rfl, ?_⟩
  · simp [cacheInit]
  · obtain ⟨st2, h2, h3, h4, h5⟩ :=
      runOps_js env ops n { st with storageType := .js, jsStorage := Store.empty } rfl
    exact ⟨st2, h2, h3, h4, h5⟩

/-- Claim C9: the backend selection is fixed once initialization has
chosen it — any successful sequence of public get/set/reset operations
leaves the selected storage type exactly as it was; only init
(re)assigns it. -/
theorem backend_selection_fixed (env : Env) (ops : List CacheOp) (n : Nat)
    (st st2 : CacheState) (n2 : Nat)
    (h : runOps env ops n st = .ok (st2, n2)) : st2.storageType = st.storageType :=
  runOps_ok_storageType env ops n st st2 n2 h

/-- Witness for C9 at a concrete input: a reset on the in-memory
backend leaves the storage type unchanged. -/
theorem backend_selection_fixed_witness :
    ({ demoJS with jsStorage := Store.empty } : CacheState).storageType =
      demoJS.storageType :=
  backend_selection_fixed envOk [CacheOp.reset] 0 demoJS
    { demoJS with jsStorage := Store.empty } 0 rfl
